import Mathlib

/-!
Verification development for the subscription lifecycle and credit-allocation
reconciliation engine of a SaaS starter repository (Express/TypeScript server
driven by a hosted billing provider).  The definitions below are a shallow
embedding of the server source: the plan/credit policy table
(server/src/config/stripe.ts), the subscription store and webhook-event ledger
models (server/src/models/Subscription.ts, server/src/models/WebhookEvent.ts),
the reconciliation service (server/src/services/stripeService.ts), and the
inbound webhook endpoint handler (the stripe routes file).

External collaborators (the billing provider API, the user table, the e-mail
sender, the clock, and database write failures) are captured in an `Env`
record of oracles; the database rows are explicit lists threaded through each
operation.  Partial updates sent to the store are modelled field by field with
a three-valued `JsOpt` type so that the JavaScript distinction between a key
assigned `undefined` (dropped by JSON serialization of the update body, hence
a no-op on the stored row) and a key assigned `null` (stored as NULL) is
preserved exactly as the PostgREST client transmits it.
-/

namespace Billing

/-! ## Plan / credit policy table (server/src/config/stripe.ts) -/

/-- Feature limits of one plan tier (`STRIPE_CONFIG.LIMITS`); `-1` means
unlimited, as in the source. -/
structure PlanLimits where
  files : Int
  storage : Int
  posts : Int
deriving DecidableEq, Repr

def LIMITS_FREE : PlanLimits := { files := 10, storage := 100 * 1024 * 1024, posts := 5 }

def LIMITS_STARTUP : PlanLimits := { files := 100, storage := 1024 * 1024 * 1024, posts := 50 }

def LIMITS_PRO : PlanLimits := { files := 1000, storage := 10 * 1024 * 1024 * 1024, posts := 500 }

def LIMITS_ENTERPRISE : PlanLimits := { files := -1, storage := -1, posts := -1 }

/-- Embedding of `getPlanFromPriceId`: the price-to-plan map built from
`STRIPE_CONFIG.PRICES` with the environment variables unset, so each entry is
its documented default id; unknown price ids map to `"FREE"`. -/
def getPlanFromPriceId (priceId : String) : String :=
  if priceId = "price_startup_monthly" ∨ priceId = "price_startup_yearly" then "STARTUP"
  else if priceId = "price_pro_monthly" ∨ priceId = "price_pro_yearly" then "PRO"
  else if priceId = "price_enterprise_monthly" ∨ priceId = "price_enterprise_yearly" then
    "ENTERPRISE"
  else "FREE"

/-- Reading `getPlanFromPriceId` at a possibly-undefined price id, as the
handlers that use optional chaining do: `priceMap[undefined]` is `undefined`,
and `undefined || FREE` yields `"FREE"`. -/
def getPlanFromPriceIdJs : Option String → String
  | none => "FREE"
  | some p => getPlanFromPriceId p

/-- Model of the JavaScript `toUpperCase()` call of the policy lookups,
mapping each character through `Char.toUpper` (written structurally over the
character list so that it evaluates). -/
def jsToUpperCase (s : String) : String := ⟨s.data.map Char.toUpper⟩

/-- Embedding of `getPlanLimits`: uppercases the plan name, with the
`BASIC`/`STARTUP` fallthrough of the source switch and the FREE default. -/
def getPlanLimits (planName : String) : PlanLimits :=
  let u := jsToUpperCase planName
  if u = "BASIC" ∨ u = "STARTUP" then LIMITS_STARTUP
  else if u = "PRO" then LIMITS_PRO
  else if u = "ENTERPRISE" then LIMITS_ENTERPRISE
  else LIMITS_FREE

/-- Embedding of `getPlanCredits`: `none` models the JavaScript `null` return
meaning an unlimited allocation; every unrecognized name falls through to the
free-tier default of 10. -/
def getPlanCredits (planName : String) : Option Nat :=
  let plan := jsToUpperCase planName
  if plan = "BASIC" ∨ plan = "STARTUP" then some 500
  else if plan = "PRO" then some 2000
  else if plan = "ENTERPRISE" then none
  else if plan = "FREE" then some 10
  else some 10

/-- A JavaScript runtime error raised by the embedded code itself (as opposed
to a thrown `CustomError`). -/
inductive JsRuntimeError where
  | typeError (message : String)
deriving DecidableEq, Repr

/-- Calling `getPlanCredits` with a possibly-null argument, as the raw
JavaScript runtime would: the TypeScript signature demands a string, and a
`null` actually reaching `planName.toUpperCase()` raises a TypeError. -/
def getPlanCreditsNullable : Option String → Except JsRuntimeError (Option Nat)
  | none => .error (.typeError "Cannot read properties of null - reading toUpperCase")
  | some s => .ok (getPlanCredits s)

/-- Calling `getPlanLimits` with a possibly-null argument; a `null` reaching
`planName.toUpperCase()` raises a TypeError. -/
def getPlanLimitsNullable : Option String → Except JsRuntimeError PlanLimits
  | none => .error (.typeError "Cannot read properties of null - reading toUpperCase")
  | some s => .ok (getPlanLimits s)

/-! ## Subscription record and partial updates (server/src/models/Subscription.ts) -/

/-- Internal subscription status enum of the `Subscription` interface. -/
inductive SubStatus where
  | ACTIVE
  | INACTIVE
  | PAST_DUE
  | CANCELED
  | UNPAID
deriving DecidableEq, Repr

/-- One row of the `subscriptions` table.  Timestamps are kept as
milliseconds since the epoch (the ISO-string round trip through
`new Date(ms).toISOString()` and `new Date(iso).getTime()` is the identity on
the millisecond value).  `credits_total = none` models the NULL meaning an
unlimited allocation. -/
structure Subscription where
  user_id : String
  stripe_customer_id : String
  stripe_subscription_id : Option String
  status : SubStatus
  plan_name : Option String
  price_id : Option String
  current_period_start : Option Nat
  current_period_end : Option Nat
  credits_total : Option Nat
  credits_used : Nat
  credits_reset_at : Option Nat
deriving DecidableEq, Repr

/-- Value of one key of a JavaScript update object: the key may be absent or
assigned `undefined` (both dropped by the JSON serialization of the request
body, hence leaving the stored column untouched), assigned `null` (stored as
NULL), or assigned a value. -/
inductive JsOpt (α : Type) where
  | undef
  | null
  | val (a : α)
deriving DecidableEq, Repr

/-- A partial update object passed to `SubscriptionModel.update` or
`SubscriptionModel.updateByStripeId`.  Fields of NOT NULL columns that the
source only ever assigns values or omits are `Option`; nullable columns are
`JsOpt`. -/
structure SubUpdate where
  stripe_customer_id : Option String := none
  stripe_subscription_id : JsOpt String := .undef
  status : Option SubStatus := none
  plan_name : Option String := none
  price_id : JsOpt String := .undef
  current_period_start : JsOpt Nat := .undef
  current_period_end : JsOpt Nat := .undef
  credits_total : JsOpt Nat := .undef
  credits_used : Option Nat := none
  credits_reset_at : JsOpt Nat := .undef
deriving DecidableEq, Repr

def applyJsOpt {α : Type} (old : Option α) : JsOpt α → Option α
  | .undef => old
  | .null => none
  | .val a => some a

def applyOptVal {α : Type} (old : α) : Option α → α
  | none => old
  | some a => a

def applyOptField {α : Type} (old : Option α) : Option α → Option α
  | none => old
  | some a => some a

/-- Effect of a partial update on one stored row, PostgREST semantics: keys
serialized in the body overwrite the column, keys dropped by the JSON
serialization (undefined) leave it unchanged. -/
def applySubUpdate (s : Subscription) (u : SubUpdate) : Subscription :=
  { user_id := s.user_id
    stripe_customer_id := applyOptVal s.stripe_customer_id u.stripe_customer_id
    stripe_subscription_id := applyJsOpt s.stripe_subscription_id u.stripe_subscription_id
    status := applyOptVal s.status u.status
    plan_name := applyOptField s.plan_name u.plan_name
    price_id := applyJsOpt s.price_id u.price_id
    current_period_start := applyJsOpt s.current_period_start u.current_period_start
    current_period_end := applyJsOpt s.current_period_end u.current_period_end
    credits_total := applyJsOpt s.credits_total u.credits_total
    credits_used := applyOptVal s.credits_used u.credits_used
    credits_reset_at := applyJsOpt s.credits_reset_at u.credits_reset_at }

/-! ## External world: provider objects, users, oracles -/

/-- One line item of a provider-side subscription (`items.data[n]`). -/
structure StripeSubItem where
  id : Option String
  price : Option String
deriving DecidableEq, Repr

/-- A provider-side subscription object, both as delivered inside webhook
events (`event.data.object`) and as returned by the gateway
(`stripe.subscriptions.retrieve` and friends).  Period boundaries are in
seconds, as Stripe sends them; `0` models a missing (falsy) value. -/
structure StripeSub where
  id : String
  customer : String
  status : String
  cancel_at_period_end : Bool
  items : List StripeSubItem
  current_period_start : Nat
  current_period_end : Nat
  metadata_user_id : Option String
deriving DecidableEq, Repr

/-- Result of `stripe.customers.retrieve`. -/
structure CustomerInfo where
  deleted : Bool
  email : Option String
deriving DecidableEq, Repr

/-- A row of the application user table. -/
structure User where
  id : String
  email : String
  name : Option String
deriving DecidableEq, Repr

/-- Failure of a provider API call. -/
inductive StripeErr where
  | resourceMissing
  | apiError (message : String)
deriving DecidableEq, Repr

def stripeErrMessage : StripeErr → String
  | .resourceMissing => "No such resource"
  | .apiError m => m

/-- Request body of `stripe.subscriptions.update`, covering the three shapes
the service sends (plan switch, cancel at period end, reactivate). -/
structure StripeUpdateReq where
  cancel_at_period_end : Option Bool := none
  itemId : Option String := none
  itemPrice : Option String := none
deriving DecidableEq, Repr

/-- An error thrown by the embedded service code: a `CustomError` carrying an
HTTP status code, or a raw JavaScript runtime error (both reach the webhook
endpoint the same way). -/
inductive SvcErr where
  | custom (statusCode : Nat) (message : String)
  | jsTypeError (message : String)
deriving DecidableEq, Repr

/-- Oracles for everything outside the reconciliation engine: the billing
provider API, the user table, the e-mail sender, the clock, and an injected
failure for subscription-table writes (`dbUpdateErr = some m` makes every
`SubscriptionModel` update throw with message `m`). -/
structure Env where
  subscriptionsRetrieve : String → Except StripeErr StripeSub
  subscriptionsUpdate : String → StripeUpdateReq → Except StripeErr StripeSub
  subscriptionsCancel : String → Except StripeErr StripeSub
  subscriptionsList : String → Except StripeErr (List StripeSub)
  customersRetrieve : String → Except StripeErr CustomerInfo
  userById : String → Option User
  userByEmail : String → Option User
  resendOk : Bool
  dbUpdateErr : Option String
  now : Nat

/-! ## SubscriptionModel over an explicit row list -/

namespace SubscriptionModel

def findByUserId (subs : List Subscription) (userId : String) : Option Subscription :=
  subs.find? (fun r => decide (r.user_id = userId))

def findByStripeCustomerId (subs : List Subscription) (customerId : String) :
    Option Subscription :=
  subs.find? (fun r => decide (r.stripe_customer_id = customerId))

def findByStripeSubscriptionId (subs : List Subscription) (subscriptionId : String) :
    Option Subscription :=
  subs.find? (fun r => decide (r.stripe_subscription_id = some subscriptionId))

/-- Embedding of `SubscriptionModel.update`: throws when the database write
fails, returns `none` (PGRST116) when no row matches, else the updated row. -/
def update (env : Env) (subs : List Subscription) (userId : String) (u : SubUpdate) :
    Except SvcErr (List Subscription × Option Subscription) :=
  match env.dbUpdateErr with
  | some m => .error (.custom 500 ("Failed to update subscription: " ++ m))
  | none =>
    match subs.find? (fun r => decide (r.user_id = userId)) with
    | none => .ok (subs, none)
    | some r =>
      .ok (subs.map (fun x => if decide (x.user_id = userId) then applySubUpdate x u else x),
           some (applySubUpdate r u))

/-- Embedding of `SubscriptionModel.updateByStripeId`. -/
def updateByStripeId (env : Env) (subs : List Subscription) (stripeSubscriptionId : String)
    (u : SubUpdate) : Except SvcErr (List Subscription × Option Subscription) :=
  match env.dbUpdateErr with
  | some m => .error (.custom 500 ("Failed to update subscription: " ++ m))
  | none =>
    match subs.find? (fun r => decide (r.stripe_subscription_id = some stripeSubscriptionId)) with
    | none => .ok (subs, none)
    | some r =>
      .ok (subs.map (fun x =>
             if decide (x.stripe_subscription_id = some stripeSubscriptionId) then
               applySubUpdate x u else x),
           some (applySubUpdate r u))

/-- A fresh row as `SubscriptionModel.create` inserts it for a new customer:
INACTIVE, no subscription ref, column defaults elsewhere. -/
def freshRow (userId customerId : String) : Subscription :=
  { user_id := userId
    stripe_customer_id := customerId
    stripe_subscription_id := none
    status := .INACTIVE
    plan_name := none
    price_id := none
    current_period_start := none
    current_period_end := none
    credits_total := none
    credits_used := 0
    credits_reset_at := none }

/-- Embedding of `SubscriptionModel.create`: unique-key violation on user id
becomes the 409 `CustomError`. -/
def create (subs : List Subscription) (userId customerId : String) :
    Except SvcErr (List Subscription) :=
  if subs.any (fun r => decide (r.user_id = userId)) then
    .error (.custom 409 "Subscription already exists for this user")
  else
    .ok (subs ++ [freshRow userId customerId])

end SubscriptionModel

/-! ## Webhook event ledger (server/src/models/WebhookEvent.ts) -/

/-- One row of the `webhook_events` table (the raw payload blob is not needed
by any claim and is omitted from the row). -/
structure LedgerEntry where
  stripe_event_id : String
  event_type : String
  processed : Bool
deriving DecidableEq, Repr

namespace WebhookEventModel

def existsByStripeEventId (ledger : List LedgerEntry) (stripeEventId : String) : Bool :=
  ledger.any (fun e => decide (e.stripe_event_id = stripeEventId))

/-- Embedding of `WebhookEventModel.create`: the unique-key constraint on the
event id turns a duplicate insert into the 409 `CustomError`; otherwise the
entry is stored with `processed = false`. -/
def create (ledger : List LedgerEntry) (stripeEventId eventType : String) :
    Except SvcErr (List LedgerEntry) :=
  if existsByStripeEventId ledger stripeEventId then
    .error (.custom 409 "Webhook event already exists - duplicate")
  else
    .ok (ledger ++ [{ stripe_event_id := stripeEventId, event_type := eventType,
                      processed := false }])

def markAsProcessed (ledger : List LedgerEntry) (stripeEventId : String) : List LedgerEntry :=
  ledger.map (fun e =>
    if decide (e.stripe_event_id = stripeEventId) then { e with processed := true } else e)

def findByStripeEventId (ledger : List LedgerEntry) (stripeEventId : String) :
    Option LedgerEntry :=
  ledger.find? (fun e => decide (e.stripe_event_id = stripeEventId))

end WebhookEventModel

/-! ## Reconciliation service (server/src/services/stripeService.ts) -/

/-- The status map shared by `handleSubscriptionUpdated` and
`syncSubscriptionFromStripe`, with the `|| INACTIVE` default of the source. -/
def mapStripeStatus (s : String) : SubStatus :=
  if s = "active" then .ACTIVE
  else if s = "past_due" then .PAST_DUE
  else if s = "canceled" then .CANCELED
  else if s = "unpaid" then .UNPAID
  else if s = "incomplete" then .INACTIVE
  else if s = "incomplete_expired" then .INACTIVE
  else if s = "trialing" then .ACTIVE
  else .INACTIVE

/-- The pattern `x ? new Date(x * 1000).toISOString() : undefined` applied to
a period boundary in seconds: a falsy (zero) value yields `undefined`, which
the JSON serialization then drops. -/
def jsOptTruthyMs (secs : Nat) : JsOpt Nat :=
  if secs = 0 then .undef else .val (secs * 1000)

/-- Passing a nullable number (the credit allocation) as an update value:
a number is serialized as itself, a JavaScript `null` as NULL. -/
def jsOfNullable {α : Type} : Option α → JsOpt α
  | none => .null
  | some a => .val a

namespace StripeService

/-- The credit-reset test of `handleSubscriptionUpdated`, exactly as the
source computes it: `isNewCycle || !existing || existing.plan_name !==
planName`, where `isNewCycle` is `prevPeriodStart !== undefined &&
prevPeriodStart !== nextPeriodStart`. -/
def resetCondition (existing : Option Subscription) (nextPeriodStart : Nat)
    (planName : String) : Bool :=
  (match existing.bind (fun r => r.current_period_start) with
   | some p => decide (p ≠ nextPeriodStart)
   | none => false)
  || existing.isNone
  || (match existing with
      | some r => decide (r.plan_name ≠ some planName)
      | none => true)

/-- The handler epilogue shared by the subscription handlers: look up the
user, skip the notification e-mail with a warning when none is found, and
fail the handler when the e-mail send rejects. -/
def emailStep (env : Env) (user? : Option User) : Except SvcErr Unit :=
  match user? with
  | none => .ok ()
  | some _user =>
    if env.resendOk then .ok () else .error (.custom 500 "Failed to send email")

/-- The update object `handleSubscriptionUpdated` sends to the store: plan,
price, status and period fields always, the credit-counter reset fields only
when `resetCondition` holds of the previously stored row. -/
def updateFor (ev : StripeSub) (existing : Option Subscription) (priceId : String) :
    SubUpdate :=
  let planName := getPlanFromPriceId priceId
  let nextPeriodStart := ev.current_period_start * 1000
  let baseUpd : SubUpdate :=
    { status := some (mapStripeStatus ev.status)
      plan_name := some planName
      price_id := .val priceId
      current_period_start := if nextPeriodStart = 0 then .undef else .val nextPeriodStart
      current_period_end := jsOptTruthyMs ev.current_period_end
      credits_total := jsOfNullable (getPlanCredits planName) }
  if resetCondition existing nextPeriodStart planName then
    { baseUpd with credits_used := some 0,
                   credits_reset_at := jsOptTruthyMs ev.current_period_end }
  else baseUpd

/-- Embedding of `StripeService.handleSubscriptionUpdated`.  The source reads
`items.data[0].price.id` without optional chaining, so a missing item or
price raises a TypeError; otherwise it recomputes the plan, maps the provider
status, and sends the store the `updateFor` object, which resets the credit
counters exactly when `resetCondition` holds of the previously stored row. -/
def handleSubscriptionUpdated (env : Env) (ev : StripeSub) (subs : List Subscription) :
    List Subscription × Except SvcErr Unit :=
  match ev.items.head? with
  | none => (subs, .error (.jsTypeError "Cannot read properties of undefined - reading price"))
  | some item =>
    match item.price with
    | none => (subs, .error (.jsTypeError "Cannot read properties of undefined - reading id"))
    | some priceId =>
      let existing := SubscriptionModel.findByStripeSubscriptionId subs ev.id
      match SubscriptionModel.updateByStripeId env subs ev.id (updateFor ev existing priceId) with
      | .error e => (subs, .error e)
      | .ok (subs1, _) => (subs1, emailStep env (ev.metadata_user_id.bind env.userById))

/-- Embedding of `StripeService.handleSubscriptionDeleted`: the FREE
downgrade update.  The source assigns `undefined` to `price_id` and
`stripe_subscription_id`; those keys are dropped by the JSON serialization of
the update body, so the stored columns are left untouched, while
`credits_reset_at: null` is serialized and stored as NULL. -/
def handleSubscriptionDeleted (env : Env) (ev : StripeSub) (subs : List Subscription) :
    List Subscription × Except SvcErr Unit :=
  let freeCredits := getPlanCredits "FREE"
  let upd : SubUpdate :=
    { status := some .CANCELED
      plan_name := some "FREE"
      price_id := .undef
      stripe_subscription_id := .undef
      current_period_end := .val env.now
      credits_total := jsOfNullable freeCredits
      credits_used := some 0
      credits_reset_at := .null }
  match SubscriptionModel.updateByStripeId env subs ev.id upd with
  | .error e => (subs, .error e)
  | .ok (subs1, _) => (subs1, emailStep env (env.userById ev.customer))

/-- Embedding of `StripeService.handleSubscriptionCreated`: validates the
event data, locates the row by customer ref, repairs the linkage through the
customer e-mail when no row matches (all failures of that repair block are
swallowed by its inner catch), then activates the subscription and resets the
credit counters; a row that can neither be found nor created is a permanent
404 failure. -/
def handleSubscriptionCreated (env : Env) (ev : StripeSub) (subs0 : List Subscription) :
    List Subscription × Except SvcErr Unit :=
  let customerId := ev.customer
  let subscriptionId := ev.id
  let priceId? := ev.items.head?.bind (fun it => it.price)
  let planName := getPlanFromPriceIdJs priceId?
  if customerId = "" ∨ subscriptionId = "" ∨ priceId?.getD "" = "" then
    (subs0, .error (.custom 400 "Missing required subscription data from Stripe webhook"))
  else
    let repaired : List Subscription × Option Subscription :=
      match SubscriptionModel.findByStripeCustomerId subs0 customerId with
      | some s => (subs0, some s)
      | none =>
        match env.customersRetrieve customerId with
        | .error _ => (subs0, none)
        | .ok info =>
          if info.deleted then (subs0, none)
          else
            match info.email with
            | none => (subs0, none)
            | some email =>
              match env.userByEmail email with
              | none => (subs0, none)
              | some user =>
                match SubscriptionModel.findByUserId subs0 user.id with
                | some _ =>
                  match SubscriptionModel.update env subs0 user.id
                      { stripe_customer_id := some customerId } with
                  | .error _ => (subs0, none)
                  | .ok (subs1, _) => (subs1, SubscriptionModel.findByUserId subs1 user.id)
                | none =>
                  match SubscriptionModel.create subs0 user.id customerId with
                  | .error _ => (subs0, none)
                  | .ok subs1 => (subs1, SubscriptionModel.findByUserId subs1 user.id)
    match repaired with
    | (subs1, none) =>
      (subs1, .error (.custom 404 "Subscription record not found and could not be created"))
    | (subs1, some subscription) =>
      let creditsTotal := getPlanCredits planName
      let upd : SubUpdate :=
        { stripe_subscription_id := .val subscriptionId
          status := some .ACTIVE
          plan_name := some planName
          price_id := (match priceId? with | some p => .val p | none => .undef)
          current_period_start := jsOptTruthyMs ev.current_period_start
          current_period_end := jsOptTruthyMs ev.current_period_end
          credits_total := jsOfNullable creditsTotal
          credits_used := some 0
          credits_reset_at := jsOptTruthyMs ev.current_period_end }
      match SubscriptionModel.update env subs1 subscription.user_id upd with
      | .error e => (subs1, .error e)
      | .ok (subs2, _) => (subs2, emailStep env (env.userById subscription.user_id))

/-- Body of `StripeService.syncSubscriptionFromStripe` before its enclosing
catch: list the provider subscriptions of the customer, adopt the first one
with status active, past_due or trialing; else, when the most recent one is
canceled, mark the row canceled. -/
def syncBody (env : Env) (customerId userId : String) (subs : List Subscription) :
    List Subscription × Except SvcErr Unit :=
  match env.subscriptionsList customerId with
  | .error e => (subs, .error (.custom 500 (stripeErrMessage e)))
  | .ok stripeSubscriptions =>
    match stripeSubscriptions.find? (fun s =>
        decide (s.status = "active") || decide (s.status = "past_due")
          || decide (s.status = "trialing")) with
    | some activeSubscription =>
      let priceId? := activeSubscription.items.head?.bind (fun it => it.price)
      let planName := getPlanFromPriceIdJs priceId?
      let status := mapStripeStatus activeSubscription.status
      let creditsTotal := getPlanCredits planName
      let upd : SubUpdate :=
        { stripe_subscription_id := .val activeSubscription.id
          status := some status
          plan_name := some planName
          price_id := (match priceId? with | some p => .val p | none => .undef)
          current_period_start := jsOptTruthyMs activeSubscription.current_period_start
          current_period_end := jsOptTruthyMs activeSubscription.current_period_end
          credits_total := jsOfNullable creditsTotal }
      match SubscriptionModel.update env subs userId upd with
      | .error e => (subs, .error e)
      | .ok (subs1, _) => (subs1, .ok ())
    | none =>
      match stripeSubscriptions.head? with
      | none => (subs, .ok ())
      | some latestSub =>
        if latestSub.status = "canceled" then
          match SubscriptionModel.update env subs userId
              { stripe_subscription_id := .val latestSub.id, status := some .CANCELED } with
          | .error e => (subs, .error e)
          | .ok (subs1, _) => (subs1, .ok ())
        else (subs, .ok ())

/-- Embedding of `StripeService.syncSubscriptionFromStripe`: the whole body
runs inside a try whose catch only logs, so the operation always returns
normally; a failure leaves the rows as they were at the point of failure. -/
def syncSubscriptionFromStripe (env : Env) (customerId userId : String)
    (subs : List Subscription) : List Subscription × Except SvcErr Unit :=
  match syncBody env customerId userId subs with
  | (subs1, .error _e) => (subs1, .ok ())
  | (subs1, .ok ()) => (subs1, .ok ())

def noSubscriptionMsg : String :=
  "No subscription found for this user. Please create a subscription first."

def syncFailedMsg (customerId : String) : String :=
  "No active Stripe subscription found. Sync attempt failed. Customer ID: " ++ customerId
    ++ ". Please contact support or try creating a new subscription."

/-- Embedding of `StripeService.switchPlan`: requires a linked subscription
(after a lazy sync repair when the ref is missing) in a modifiable provider
state, issues the provider-side item update, then best-effort mirrors the new
plan locally (the mirror step has its own catch and is never fatal). -/
def switchPlan (env : Env) (userId newPriceId : String) (subs : List Subscription) :
    List Subscription × Except SvcErr Unit :=
  match SubscriptionModel.findByUserId subs userId with
  | none => (subs, .error (.custom 404 noSubscriptionMsg))
  | some subscription =>
    let afterRef : List Subscription × Except SvcErr String :=
      match subscription.stripe_subscription_id with
      | some sid => (subs, .ok sid)
      | none =>
        match syncSubscriptionFromStripe env subscription.stripe_customer_id userId subs with
        | (subs1, .error e) => (subs1, .error e)
        | (subs1, .ok ()) =>
          match SubscriptionModel.findByUserId subs1 userId with
          | some updated =>
            match updated.stripe_subscription_id with
            | some sid => (subs1, .ok sid)
            | none =>
              (subs1, .error (.custom 404 (syncFailedMsg subscription.stripe_customer_id)))
          | none => (subs1, .error (.custom 404 (syncFailedMsg subscription.stripe_customer_id)))
    match afterRef with
    | (subs1, .error e) => (subs1, .error e)
    | (subs1, .ok sid) =>
      match env.subscriptionsRetrieve sid with
      | .error .resourceMissing =>
        (subs1, .error (.custom 404
          "Subscription not found in Stripe. It may have been canceled or deleted."))
      | .error (.apiError m) =>
        (subs1, .error (.custom 500 ("Failed to switch plan: " ++ m)))
      | .ok stripeSub =>
        if stripeSub.status = "canceled" then
          (subs1, .error (.custom 400
            "Cannot switch plans on a canceled subscription. Please create a new subscription instead."))
        else if ¬ (stripeSub.status = "active" ∨ stripeSub.status = "past_due"
            ∨ stripeSub.status = "trialing") then
          (subs1, .error (.custom 400
            ("Cannot switch plans on a subscription with status: " ++ stripeSub.status
              ++ ". Please contact support.")))
        else
          match stripeSub.items.head?.bind (fun it => it.id) with
          | none => (subs1, .error (.custom 500 "Subscription items not found"))
          | some itemId =>
            match env.subscriptionsUpdate sid
                { cancel_at_period_end := some false, itemId := some itemId,
                  itemPrice := some newPriceId } with
            | .error e =>
              (subs1, .error (.custom 500 ("Failed to switch plan: " ++ stripeErrMessage e)))
            | .ok updatedStripeSubscription =>
              let planName := getPlanFromPriceId newPriceId
              let allocation := getPlanCredits planName
              let baseUpd : SubUpdate :=
                { status := some .ACTIVE
                  plan_name := some planName
                  price_id := .val newPriceId
                  current_period_start :=
                    .val (updatedStripeSubscription.current_period_start * 1000)
                  current_period_end :=
                    .val (updatedStripeSubscription.current_period_end * 1000)
                  credits_total := jsOfNullable allocation }
              let existing := SubscriptionModel.findByUserId subs1 userId
              let planDiffers : Bool :=
                match existing with
                | some e2 => decide (e2.plan_name ≠ some planName)
                | none => true
              let upd : SubUpdate :=
                if planDiffers then
                  { baseUpd with
                      credits_used := some 0
                      credits_reset_at :=
                        .val (updatedStripeSubscription.current_period_end * 1000) }
                else baseUpd
              match SubscriptionModel.updateByStripeId env subs1 sid upd with
              | .error _ => (subs1, .ok ())
              | .ok (subs2, _) => (subs2, .ok ())

/-- Embedding of `StripeService.cancelSubscription` (graceful, cancel at
period end): after the lazy sync repair, verifies the provider subscription
exists, then flags it to cancel at period end; no local row is written. -/
def cancelSubscription (env : Env) (userId : String) (subs : List Subscription) :
    List Subscription × Except SvcErr Unit :=
  match SubscriptionModel.findByUserId subs userId with
  | none => (subs, .error (.custom 404 noSubscriptionMsg))
  | some subscription =>
    let afterRef : List Subscription × Except SvcErr String :=
      match subscription.stripe_subscription_id with
      | some sid => (subs, .ok sid)
      | none =>
        match syncSubscriptionFromStripe env subscription.stripe_customer_id userId subs with
        | (subs1, .error e) => (subs1, .error e)
        | (subs1, .ok ()) =>
          match SubscriptionModel.findByUserId subs1 userId with
          | some updated =>
            match updated.stripe_subscription_id with
            | some sid => (subs1, .ok sid)
            | none =>
              (subs1, .error (.custom 404 (syncFailedMsg subscription.stripe_customer_id)))
          | none => (subs1, .error (.custom 404 (syncFailedMsg subscription.stripe_customer_id)))
    match afterRef with
    | (subs1, .error e) => (subs1, .error e)
    | (subs1, .ok sid) =>
      match env.subscriptionsRetrieve sid with
      | .error .resourceMissing =>
        (subs1, .error (.custom 404
          "Subscription not found in Stripe. It may have already been canceled or deleted."))
      | .error (.apiError m) =>
        (subs1, .error (.custom 500 ("Failed to cancel subscription: " ++ m)))
      | .ok _stripeSub =>
        match env.subscriptionsUpdate sid { cancel_at_period_end := some true } with
        | .error e =>
          (subs1, .error (.custom 500 ("Failed to cancel subscription: " ++ stripeErrMessage e)))
        | .ok _ => (subs1, .ok ())

/-- Embedding of `StripeService.cancelSubscriptionImmediately`: when the row
lacks a subscription ref the action throws at once - it does not attempt the
sync repair the other actions run; otherwise it cancels provider-side and
applies the FREE downgrade locally (with the same undefined-valued, hence
dropped, ref fields as the deletion handler). -/
def cancelSubscriptionImmediately (env : Env) (userId : String) (subs : List Subscription) :
    List Subscription × Except SvcErr Unit :=
  match SubscriptionModel.findByUserId subs userId with
  | none => (subs, .error (.custom 404 noSubscriptionMsg))
  | some subscription =>
    match subscription.stripe_subscription_id with
    | none => (subs, .error (.custom 400 "No Stripe subscription ID found"))
    | some sid =>
      match env.subscriptionsCancel sid with
      | .error e =>
        (subs, .error (.custom 500
          ("Failed to cancel subscription immediately: " ++ stripeErrMessage e)))
      | .ok _ =>
        let freeCredits := getPlanCredits "FREE"
        let upd : SubUpdate :=
          { status := some .CANCELED
            plan_name := some "FREE"
            price_id := .undef
            stripe_subscription_id := .undef
            current_period_end := .val env.now
            credits_total := jsOfNullable freeCredits
            credits_used := some 0
            credits_reset_at := .null }
        match SubscriptionModel.update env subs userId upd with
        | .error e => (subs, .error e)
        | .ok (subs1, _) => (subs1, .ok ())

/-- Embedding of `StripeService.reactivateSubscription`: after the lazy sync
repair, only a provider subscription that is flagged cancel-at-period-end and
neither canceled nor already active can be reactivated; no local row is
written. -/
def reactivateSubscription (env : Env) (userId : String) (subs : List Subscription) :
    List Subscription × Except SvcErr Unit :=
  match SubscriptionModel.findByUserId subs userId with
  | none => (subs, .error (.custom 404 noSubscriptionMsg))
  | some subscription =>
    let afterRef : List Subscription × Except SvcErr String :=
      match subscription.stripe_subscription_id with
      | some sid => (subs, .ok sid)
      | none =>
        match syncSubscriptionFromStripe env subscription.stripe_customer_id userId subs with
        | (subs1, .error e) => (subs1, .error e)
        | (subs1, .ok ()) =>
          match SubscriptionModel.findByUserId subs1 userId with
          | some updated =>
            match updated.stripe_subscription_id with
            | some sid => (subs1, .ok sid)
            | none =>
              (subs1, .error (.custom 404 (syncFailedMsg subscription.stripe_customer_id)))
          | none => (subs1, .error (.custom 404 (syncFailedMsg subscription.stripe_customer_id)))
    match afterRef with
    | (subs1, .error e) => (subs1, .error e)
    | (subs1, .ok sid) =>
      match env.subscriptionsRetrieve sid with
      | .error .resourceMissing =>
        (subs1, .error (.custom 404
          "Subscription not found in Stripe. It may have already been canceled or deleted."))
      | .error (.apiError m) =>
        (subs1, .error (.custom 500 ("Failed to reactivate subscription: " ++ m)))
      | .ok stripeSubscription =>
        if stripeSubscription.status = "canceled" then
          (subs1, .error (.custom 400
            "Cannot reactivate a canceled subscription. Please create a new subscription instead."))
        else if stripeSubscription.status = "active" then
          (subs1, .error (.custom 400 "Subscription is already active."))
        else if ¬ stripeSubscription.cancel_at_period_end then
          (subs1, .error (.custom 400
            ("Cannot reactivate subscription with status: " ++ stripeSubscription.status
              ++ ". Only subscriptions scheduled for cancellation can be reactivated.")))
        else
          match env.subscriptionsUpdate sid { cancel_at_period_end := some false } with
          | .error e =>
            (subs1, .error (.custom 500
              ("Failed to reactivate subscription: " ++ stripeErrMessage e)))
          | .ok _ => (subs1, .ok ())

end StripeService

/-! ## Invoice events and the inbound webhook endpoint (stripe routes file) -/

/-- The `subscription_details` object nested inside an invoice parent. -/
structure InvoiceSubDetails where
  subscription : Option String
deriving DecidableEq, Repr

/-- The `parent` object of an invoice payload. -/
structure InvoiceParent where
  subscription_details : Option InvoiceSubDetails
deriving DecidableEq, Repr

/-- An invoice payload as the two invoice handlers read it. -/
structure Invoice where
  id : String
  amount_paid : Nat
  parent : Option InvoiceParent
  subscription : Option String
deriving DecidableEq, Repr

namespace StripeService

/-- Embedding of `StripeService.handleInvoicePaymentSucceeded`: reads
`invoice.parent.subscription_details.subscription` (a TypeError when `parent`
or `subscription_details` is missing), and when a subscription id is present
marks the linked row ACTIVE; the confirmation-email block has its own catch
and never fails the handler. -/
def handleInvoicePaymentSucceeded (env : Env) (invoice : Invoice)
    (subs : List Subscription) : List Subscription × Except SvcErr Unit :=
  match invoice.parent with
  | none =>
    (subs, .error (.jsTypeError
      "Cannot read properties of undefined - reading subscription_details"))
  | some parent =>
    match parent.subscription_details with
    | none =>
      (subs, .error (.jsTypeError "Cannot read properties of undefined - reading subscription"))
    | some details =>
      match details.subscription with
      | none => (subs, .ok ())
      | some subscriptionId =>
        match SubscriptionModel.updateByStripeId env subs subscriptionId
            { status := some .ACTIVE } with
        | .error e => (subs, .error e)
        | .ok (subs1, _) => (subs1, .ok ())

/-- Embedding of `StripeService.handleInvoicePaymentFailed`: when the invoice
carries a subscription id, mark the linked row PAST_DUE. -/
def handleInvoicePaymentFailed (env : Env) (invoice : Invoice)
    (subs : List Subscription) : List Subscription × Except SvcErr Unit :=
  match invoice.subscription with
  | none => (subs, .ok ())
  | some subscriptionId =>
    match SubscriptionModel.updateByStripeId env subs subscriptionId
        { status := some .PAST_DUE } with
    | .error e => (subs, .error e)
    | .ok (subs1, _) => (subs1, .ok ())

end StripeService

/-- The `data.object` of an inbound event: a subscription object, an invoice
object, or some other shape (whose fields the typed handlers cannot read). -/
inductive EventObject where
  | sub (s : StripeSub)
  | invoice (i : Invoice)
  | other
deriving DecidableEq, Repr

/-- A verified inbound webhook event (signature verification is the excluded
boundary; `eventType` embeds the `type` field). -/
structure StripeEvent where
  id : String
  eventType : String
  object : EventObject
deriving DecidableEq, Repr

/-- A JSON response of the webhook endpoint: the HTTP status plus the
optional body keys the handler writes (`res.json` only serializes the keys
present in the object passed to it). -/
structure HttpResponse where
  status : Nat
  received : Option Bool := none
  processed : Option Bool := none
  message : Option String := none
  error : Option String := none
deriving DecidableEq, Repr

/-- Reading the event object as a subscription, as the subscription handlers
do; a differently-shaped object makes their field accesses fail. -/
def expectSub : EventObject → Except SvcErr StripeSub
  | .sub s => .ok s
  | _ => .error (.jsTypeError "event object is not a subscription")

/-- Reading the event object as an invoice. -/
def expectInvoice : EventObject → Except SvcErr Invoice
  | .invoice i => .ok i
  | _ => .error (.jsTypeError "event object is not an invoice")

/-- Turning a handler result into the dispatch result with `processed = true`
on success. -/
def asHandled (r : List Subscription × Except SvcErr Unit) :
    List Subscription × Except SvcErr Bool :=
  match r with
  | (subs1, .error e) => (subs1, .error e)
  | (subs1, .ok ()) => (subs1, .ok true)

/-- The switch on `event.type` inside `webhookHandler`: dispatch to the
matching service handler and report whether the event type was handled;
`invoice.created` is acknowledged without a handler call (its call is
commented out in the source) and unrecognized types are left unprocessed. -/
def dispatchEvent (env : Env) (ev : StripeEvent) (subs : List Subscription) :
    List Subscription × Except SvcErr Bool :=
  if ev.eventType = "customer.subscription.created" then
    match expectSub ev.object with
    | .error e => (subs, .error e)
    | .ok s => asHandled (StripeService.handleSubscriptionCreated env s subs)
  else if ev.eventType = "customer.subscription.updated" then
    match expectSub ev.object with
    | .error e => (subs, .error e)
    | .ok s => asHandled (StripeService.handleSubscriptionUpdated env s subs)
  else if ev.eventType = "customer.subscription.deleted" then
    match expectSub ev.object with
    | .error e => (subs, .error e)
    | .ok s => asHandled (StripeService.handleSubscriptionDeleted env s subs)
  else if ev.eventType = "invoice.payment_succeeded" then
    match expectInvoice ev.object with
    | .error e => (subs, .error e)
    | .ok i => asHandled (StripeService.handleInvoicePaymentSucceeded env i subs)
  else if ev.eventType = "invoice.payment_failed" then
    match expectInvoice ev.object with
    | .error e => (subs, .error e)
    | .ok i => asHandled (StripeService.handleInvoicePaymentFailed env i subs)
  else if ev.eventType = "invoice.created" then
    (subs, .ok true)
  else
    (subs, .ok false)

/-- The two database tables the endpoint touches. -/
structure StoreState where
  subs : List Subscription
  ledger : List LedgerEntry
deriving DecidableEq, Repr

/-- Embedding of the exported `webhookHandler` after signature verification:
check the ledger for the event id and short-circuit duplicates, store the
ledger entry, dispatch by type, flip the entry to processed on success, and
turn any thrown error into a 500 response.  `concurrent` models the race
window of at-least-once delivery: ledger entries a racing redelivery inserts
after our duplicate check (which reads the snapshot `st.ledger`) and before
our insert (which sees the full table and is guarded by the unique-key
constraint). -/
def webhookHandler (env : Env) (ev : StripeEvent) (concurrent : List LedgerEntry)
    (st : StoreState) : StoreState × HttpResponse :=
  if WebhookEventModel.existsByStripeEventId st.ledger ev.id then
    ({ st with ledger := st.ledger ++ concurrent },
     { status := 200, received := some true, message := some "Event already processed" })
  else
    let ledgerNow := st.ledger ++ concurrent
    match WebhookEventModel.create ledgerNow ev.id ev.eventType with
    | .error _ =>
      ({ subs := st.subs, ledger := ledgerNow },
       { status := 500, error := some "Webhook handler failed" })
    | .ok ledger1 =>
      match dispatchEvent env ev st.subs with
      | (subs1, .error _) =>
        ({ subs := subs1, ledger := ledger1 },
         { status := 500, error := some "Webhook handler failed" })
      | (subs1, .ok processedFlag) =>
        if processedFlag then
          ({ subs := subs1, ledger := WebhookEventModel.markAsProcessed ledger1 ev.id },
           { status := 200, received := some true, processed := some true })
        else
          ({ subs := subs1, ledger := ledger1 },
           { status := 200, received := some true, processed := some false })

/-! ## Concrete fixtures used by witnesses and counterexamples -/

/-- A baseline environment: every provider call fails or returns nothing, the
user tables are empty, e-mail sending succeeds, database writes succeed, and
the clock reads 5000 ms. -/
def envBase : Env :=
  { subscriptionsRetrieve := fun _ => .error .resourceMissing
    subscriptionsUpdate := fun _ _ => .error .resourceMissing
    subscriptionsCancel := fun _ => .error .resourceMissing
    subscriptionsList := fun _ => .ok []
    customersRetrieve := fun _ => .error .resourceMissing
    userById := fun _ => none
    userByEmail := fun _ => none
    resendOk := true
    dbUpdateErr := none
    now := 5000 }

/-- A stored PRO row mid-cycle: period started at 2000 ms, 7 credits used. -/
def proRow : Subscription :=
  { user_id := "u1"
    stripe_customer_id := "cus_1"
    stripe_subscription_id := some "sub_1"
    status := .ACTIVE
    plan_name := some "PRO"
    price_id := some "price_pro_monthly"
    current_period_start := some 2000
    current_period_end := some 4000
    credits_total := some 2000
    credits_used := 7
    credits_reset_at := some 4000 }

/-- The same row with the subscription ref missing (the broken-linkage
state the lazy sync repair exists for). -/
def rowNoRef : Subscription := { proRow with stripe_subscription_id := none }

/-- A `subscription.updated` payload for `sub_1` whose period start (1 s =
1000 ms) lies strictly before the stored 2000 ms, same PRO plan. -/
def evUpdEarlier : StripeSub :=
  { id := "sub_1"
    customer := "cus_1"
    status := "active"
    cancel_at_period_end := false
    items := [{ id := some "si_1", price := some "price_pro_monthly" }]
    current_period_start := 1
    current_period_end := 4
    metadata_user_id := none }

/-- A `subscription.deleted` payload for `sub_1`. -/
def evDel : StripeSub :=
  { id := "sub_1"
    customer := "cus_1"
    status := "canceled"
    cancel_at_period_end := false
    items := [{ id := some "si_1", price := some "price_pro_monthly" }]
    current_period_start := 2
    current_period_end := 4
    metadata_user_id := none }

/-- A provider-side active PRO subscription for customer `cus_1`. -/
def activeProviderSub : StripeSub :=
  { id := "sub_9"
    customer := "cus_1"
    status := "active"
    cancel_at_period_end := false
    items := [{ id := some "si_9", price := some "price_pro_monthly" }]
    current_period_start := 3
    current_period_end := 6
    metadata_user_id := none }

/-- A provider-side canceled subscription for customer `cus_1`. -/
def canceledProviderSub : StripeSub :=
  { id := "sub_c"
    customer := "cus_1"
    status := "canceled"
    cancel_at_period_end := false
    items := [{ id := some "si_c", price := some "price_pro_monthly" }]
    current_period_start := 3
    current_period_end := 6
    metadata_user_id := none }

/-- Environment in which customer `cus_1` has exactly one active provider
subscription, so the sync repair would succeed. -/
def envActive : Env :=
  { envBase with subscriptionsList := fun _ => .ok [activeProviderSub] }

/-- Environment in which customer `cus_1` has exactly one provider
subscription and it is canceled. -/
def envCanceled : Env :=
  { envBase with
      subscriptionsList := fun _ => .ok [canceledProviderSub]
      subscriptionsRetrieve := fun s =>
        if s = "sub_c" then .ok canceledProviderSub else .error .resourceMissing }

/-- Environment in which the provider listing call fails and every
subscription-table write fails. -/
def envBroken : Env :=
  { envBase with
      subscriptionsList := fun _ => .error (.apiError "rate limited")
      dbUpdateErr := some "connection reset" }

/-- A ledger already holding event `evt_1`. -/
def stWithEvt1 : StoreState :=
  { subs := [proRow]
    ledger := [{ stripe_event_id := "evt_1", event_type := "customer.subscription.updated",
                 processed := true }] }

/-- A redelivery of event `evt_1` (whose object shape does not matter for the
duplicate short-circuit). -/
def evDup : StripeEvent :=
  { id := "evt_1", eventType := "customer.subscription.updated", object := .other }

/-- A fresh event of a dispatched type whose object has the wrong shape, so
its handler throws. -/
def evBadShape : StripeEvent :=
  { id := "evt_9", eventType := "customer.subscription.updated", object := .other }

/-- A fresh, well-formed `subscription.updated` event for `sub_1`. -/
def evUpdEvent : StripeEvent :=
  { id := "evt_2", eventType := "customer.subscription.updated", object := .sub evUpdEarlier }

/-- An event of an unrecognized type. -/
def evUnknown : StripeEvent :=
  { id := "evt_3", eventType := "foo.bar", object := .other }

/-- An empty store. -/
def stEmpty : StoreState := { subs := [], ledger := [] }

/-- The ledger entry a racing redelivery of `evt_7` inserts during the race
window. -/
def racedEntry : LedgerEntry :=
  { stripe_event_id := "evt_7", event_type := "invoice.payment_failed", processed := false }

/-- The racing delivery of `evt_7` itself. -/
def evRaced : StripeEvent :=
  { id := "evt_7", eventType := "invoice.payment_failed"
    object := .invoice { id := "in_1", amount_paid := 0, parent := none, subscription := none } }

/-! ## Helper lemmas -/

/-- Finding after a conditional map: when the mapped function preserves the
predicate, the first match of the updated list is the update of the first
match. -/
theorem find_mapIf {α : Type} (p : α → Bool) (f : α → α)
    (hpf : ∀ a, p a = true → p (f a) = true) :
    ∀ l : List α,
      (l.map (fun a => if p a then f a else a)).find? p = (l.find? p).map f
  | [] => rfl
  | a :: t => by
    by_cases ha : p a = true
    · simp [List.find?_cons, ha, hpf a ha]
    · have ha' : p a = false := by
        cases hpa : p a
        · rfl
        · exact absurd hpa ha
      simp [List.find?_cons, ha', find_mapIf p f hpf t]

/-- Applying a serialized nullable value stores exactly that value. -/
theorem applyJsOpt_jsOfNullable {α : Type} (old : Option α) (v : Option α) :
    applyJsOpt old (jsOfNullable v) = v := by
  cases v <;> rfl

/-- The sync operation always returns normally: its catch swallows every
failure of the body. -/
theorem sync_returns_ok (env : Env) (customerId userId : String)
    (subs : List Subscription) :
    (StripeService.syncSubscriptionFromStripe env customerId userId subs).2 = .ok () := by
  unfold StripeService.syncSubscriptionFromStripe
  rcases StripeService.syncBody env customerId userId subs with ⟨subs1, r⟩
  cases r <;> rfl

/-! ## Claims -/

/-- C1: a second delivery of an event id already present in the ledger is
short-circuited before dispatch: the subscription rows are untouched, no
second ledger entry is added (the final ledger is the pre-existing one plus
whatever a racing writer inserted, nothing from this delivery), and the
endpoint reports success with the already-processed message. -/
theorem C1_duplicate_delivery_idempotent (env : Env) (ev : StripeEvent)
    (concurrent : List LedgerEntry) (st : StoreState)
    (h : WebhookEventModel.existsByStripeEventId st.ledger ev.id = true) :
    (webhookHandler env ev concurrent st).1.subs = st.subs ∧
    (webhookHandler env ev concurrent st).1.ledger = st.ledger ++ concurrent ∧
    (webhookHandler env ev concurrent st).2 =
      { status := 200, received := some true, processed := none,
        message := some "Event already processed", error := none } := by
  simp [webhookHandler, h]

/-- Witness for C1 at a concrete redelivery of `evt_1`. -/
theorem C1_duplicate_delivery_idempotent_witness :
    (webhookHandler envBase evDup [] stWithEvt1).1.subs = stWithEvt1.subs :=
  (C1_duplicate_delivery_idempotent envBase evDup [] stWithEvt1 (by decide)).1

/-- C3 (code bug): handling `subscription.deleted` for the stored `sub_1` row
performs the FREE downgrade of status, plan, period end and credit counters,
but leaves `price_id` and `stripe_subscription_id` unchanged: the source
assigns them `undefined`, and the JSON serialization of the update body drops
those keys, so the columns the spec says are cleared keep their old values. -/
theorem C3_deleted_row_keeps_refs :
    (StripeService.handleSubscriptionDeleted envBase evDel [proRow]).1 =
      [{ user_id := "u1"
         stripe_customer_id := "cus_1"
         stripe_subscription_id := some "sub_1"
         status := .CANCELED
         plan_name := some "FREE"
         price_id := some "price_pro_monthly"
         current_period_start := some 2000
         current_period_end := some 5000
         credits_total := some 10
         credits_used := 0
         credits_reset_at := none }] ∧
    (StripeService.handleSubscriptionDeleted envBase evDel [proRow]).2 = .ok () := by
  exact ⟨by decide, rfl⟩

/-- C4: a fresh (non-duplicate, non-raced) event whose dispatched handler
throws yields a 500 response, and the ledger entry stored for the event
remains with `processed = false` - it is never flipped on a failed
handling, so the provider will redeliver. -/
theorem C4_handler_failure_unprocessed (env : Env) (ev : StripeEvent)
    (concurrent : List LedgerEntry) (st : StoreState) (e : SvcErr)
    (h1 : WebhookEventModel.existsByStripeEventId st.ledger ev.id = false)
    (h2 : WebhookEventModel.existsByStripeEventId (st.ledger ++ concurrent) ev.id = false)
    (h3 : (dispatchEvent env ev st.subs).2 = .error e) :
    (webhookHandler env ev concurrent st).2.status = 500 ∧
    (webhookHandler env ev concurrent st).2.received = none ∧
    (webhookHandler env ev concurrent st).2.error = some "Webhook handler failed" ∧
    (webhookHandler env ev concurrent st).1.ledger =
      (st.ledger ++ concurrent) ++
        [{ stripe_event_id := ev.id, event_type := ev.eventType, processed := false }] := by
  rcases hd : dispatchEvent env ev st.subs with ⟨subs1, r⟩
  rw [hd] at h3
  simp only at h3
  subst h3
  simp [webhookHandler, h1, WebhookEventModel.create, h2, hd]

/-- Witness for C4 at a fresh `customer.subscription.updated` event whose
object has the wrong shape, so the dispatched handler throws. -/
theorem C4_handler_failure_unprocessed_witness :
    (webhookHandler envBase evBadShape [] stEmpty).2.status = 500 ∧
    (webhookHandler envBase evBadShape [] stEmpty).2.received = none ∧
    (webhookHandler envBase evBadShape [] stEmpty).2.error = some "Webhook handler failed" ∧
    (webhookHandler envBase evBadShape [] stEmpty).1.ledger =
      (stEmpty.ledger ++ []) ++
        [{ stripe_event_id := evBadShape.id, event_type := evBadShape.eventType,
           processed := false }] :=
  C4_handler_failure_unprocessed envBase evBadShape [] stEmpty
    (.jsTypeError "event object is not a subscription") (by decide) (by decide) rfl

/-- C8 (amended): a successfully handled fresh event is answered 200 with
`received: true` and `processed: b`; a duplicate-skip is answered 200 with
`received: true` and an `Event already processed` message and carries no
`processed` key at all. -/
theorem C8_success_response_shape (env : Env) (ev : StripeEvent)
    (concurrent : List LedgerEntry) (st : StoreState) (b : Bool) :
    (WebhookEventModel.existsByStripeEventId st.ledger ev.id = true →
      (webhookHandler env ev concurrent st).2 =
        { status := 200, received := some true, processed := none,
          message := some "Event already processed", error := none }) ∧
    (WebhookEventModel.existsByStripeEventId st.ledger ev.id = false →
      WebhookEventModel.existsByStripeEventId (st.ledger ++ concurrent) ev.id = false →
      (dispatchEvent env ev st.subs).2 = .ok b →
      (webhookHandler env ev concurrent st).2 =
        { status := 200, received := some true, processed := some b,
          message := none, error := none }) := by
  constructor
  · intro h
    simp [webhookHandler, h]
  · intro h1 h2 h3
    rcases hd : dispatchEvent env ev st.subs with ⟨subs1, r⟩
    rw [hd] at h3
    simp only at h3
    subst h3
    cases b <;> simp [webhookHandler, h1, WebhookEventModel.create, h2, hd]

/-- Witness for C8 at a fresh event of an unrecognized type, answered 200
with `processed: false`. -/
theorem C8_success_response_shape_witness :
    (webhookHandler envBase evUnknown [] stEmpty).2 =
      { status := 200, received := some true, processed := some false,
        message := none, error := none } :=
  (C8_success_response_shape envBase evUnknown [] stEmpty false).2 (by decide) (by decide) rfl

/-- C8 counterexample: the duplicate-skip response is a 200 whose body has
`received: true` but no `processed` key (the body is
`received`/`message`, not the claimed `received`/`processed` shape). -/
theorem C8_counterexample_duplicate_body_shape :
    (webhookHandler envBase evDup [] stWithEvt1).2.status = 200 ∧
    (webhookHandler envBase evDup [] stWithEvt1).2.received = some true ∧
    (webhookHandler envBase evDup [] stWithEvt1).2.processed = none ∧
    (webhookHandler envBase evDup [] stWithEvt1).2.message = some "Event already processed" := by
  decide

/-- C9 (amended): when a racing redelivery inserts the same event id between
the duplicate check and the insert, the insert fails on the unique-key
constraint and the endpoint answers 500 `Webhook handler failed` - not a
success - while performing no subscription mutation and adding no ledger
entry of its own; the provider therefore retries, and that retry is
short-circuited as already processed. -/
theorem C9_race_unique_violation_500 (env : Env) (ev : StripeEvent)
    (concurrent : List LedgerEntry) (st : StoreState)
    (h1 : WebhookEventModel.existsByStripeEventId st.ledger ev.id = false)
    (h2 : WebhookEventModel.existsByStripeEventId (st.ledger ++ concurrent) ev.id = true) :
    (webhookHandler env ev concurrent st).1.subs = st.subs ∧
    (webhookHandler env ev concurrent st).1.ledger = st.ledger ++ concurrent ∧
    (webhookHandler env ev concurrent st).2 =
      { status := 500, received := none, processed := none, message := none,
        error := some "Webhook handler failed" } ∧
    (webhookHandler env ev [] ((webhookHandler env ev concurrent st).1)).2 =
      { status := 200, received := some true, processed := none,
        message := some "Event already processed", error := none } := by
  have hmain : webhookHandler env ev concurrent st =
      ({ subs := st.subs, ledger := st.ledger ++ concurrent },
       { status := 500, received := none, processed := none, message := none,
         error := some "Webhook handler failed" }) := by
    simp [webhookHandler, h1, WebhookEventModel.create, h2]
  refine ⟨by rw [hmain], by rw [hmain], by rw [hmain], ?_⟩
  rw [hmain]
  simp [webhookHandler, h2]

/-- Witness for C9 at the raced delivery of `evt_7`. -/
theorem C9_race_unique_violation_500_witness :
    (webhookHandler envBase evRaced [racedEntry] stEmpty).1.subs = stEmpty.subs ∧
    (webhookHandler envBase evRaced [racedEntry] stEmpty).1.ledger =
      stEmpty.ledger ++ [racedEntry] :=
  ⟨(C9_race_unique_violation_500 envBase evRaced [racedEntry] stEmpty
      (by decide) (by decide)).1,
   (C9_race_unique_violation_500 envBase evRaced [racedEntry] stEmpty
      (by decide) (by decide)).2.1⟩

/-- C9 counterexample: at the raced delivery of `evt_7` the endpoint does not
respond with success: the status is 500 and the body is the handler-failed
error, not an already-processed acknowledgement. -/
theorem C9_counterexample_race_not_success :
    (webhookHandler envBase evRaced [racedEntry] stEmpty).2.status = 500 ∧
    (webhookHandler envBase evRaced [racedEntry] stEmpty).2.received = none ∧
    (webhookHandler envBase evRaced [racedEntry] stEmpty).2.error =
      some "Webhook handler failed" := by
  decide

/-- C5 (amended): the policy lookups are total on actual strings - any
string input, empty or oddly cased, yields a defined allocation without
throwing, two names with the same uppercasing get the same policy, and
unrecognized names fall back to the FREE tier; a null (non-string) input is
outside the domain and raises a TypeError (see the counterexample). -/
theorem C5_policy_total_on_strings (s t : String) :
    getPlanCreditsNullable (some s) = .ok (getPlanCredits s) ∧
    getPlanLimitsNullable (some s) = .ok (getPlanLimits s) ∧
    (jsToUpperCase s = jsToUpperCase t →
      getPlanCredits s = getPlanCredits t ∧ getPlanLimits s = getPlanLimits t) ∧
    (¬ (jsToUpperCase s = "BASIC" ∨ jsToUpperCase s = "STARTUP" ∨ jsToUpperCase s = "PRO" ∨
        jsToUpperCase s = "ENTERPRISE" ∨ jsToUpperCase s = "FREE") →
      getPlanCredits s = getPlanCredits "FREE" ∧ getPlanLimits s = getPlanLimits "FREE") ∧
    getPlanCredits "" = getPlanCredits "FREE" ∧
    getPlanLimits "" = getPlanLimits "FREE" := by
  have hfc : getPlanCredits "FREE" = some 10 := by decide
  have hfl : getPlanLimits "FREE" = LIMITS_FREE := by decide
  refine ⟨rfl, rfl, ?_, ?_, by decide, by decide⟩
  · intro h
    exact ⟨by simp only [getPlanCredits, h], by simp only [getPlanLimits, h]⟩
  · intro h
    push_neg at h
    obtain ⟨h1, h2, h3, h4, h5⟩ := h
    constructor
    · rw [hfc]
      simp only [getPlanCredits]
      rw [if_neg (by simp [h1, h2]), if_neg h3, if_neg h4, if_neg h5]
    · rw [hfl]
      simp only [getPlanLimits]
      rw [if_neg (by simp [h1, h2]), if_neg h3, if_neg h4]

/-- Witness for C5: the unrecognized name `gold` falls back to the FREE
policy, and `pro` matches its uppercase spelling. -/
theorem C5_policy_total_on_strings_witness :
    (getPlanCredits "gold" = getPlanCredits "FREE" ∧
      getPlanLimits "gold" = getPlanLimits "FREE") ∧
    (getPlanCredits "pro" = getPlanCredits "PRO" ∧
      getPlanLimits "pro" = getPlanLimits "PRO") :=
  ⟨(C5_policy_total_on_strings "gold" "GOLD").2.2.2.1 (by decide),
   (C5_policy_total_on_strings "pro" "PRO").2.2.1 (by decide)⟩

/-- C5 counterexample: a null input is not handled - it reaches
`toUpperCase()` and raises a TypeError instead of returning the FREE
fallback. -/
theorem C5_counterexample_null_input_throws :
    getPlanCreditsNullable none =
      .error (.typeError "Cannot read properties of null - reading toUpperCase") ∧
    getPlanLimitsNullable none =
      .error (.typeError "Cannot read properties of null - reading toUpperCase") :=
  ⟨rfl, rfl⟩

/-- The reset test on an existing row holds exactly when the stored period
start exists and differs from the incoming one, or the stored plan name
differs from the incoming one. -/
theorem resetCondition_some (sub : Subscription) (next : Nat) (planName : String) :
    StripeService.resetCondition (some sub) next planName = true ↔
      ((∃ p, sub.current_period_start = some p ∧ p ≠ next) ∨
        sub.plan_name ≠ some planName) := by
  unfold StripeService.resetCondition
  cases h : sub.current_period_start <;> simp [h]

/-- A successful `updateByStripeId` on a found row maps the row list, and
when the update leaves the subscription ref untouched the updated row is
still the first match for that ref. -/
theorem updateByStripeId_found (env : Env) (subs : List Subscription) (sid : String)
    (u : SubUpdate) (sub : Subscription)
    (hdb : env.dbUpdateErr = none)
    (hfound : SubscriptionModel.findByStripeSubscriptionId subs sid = some sub)
    (hu : u.stripe_subscription_id = .undef) :
    SubscriptionModel.updateByStripeId env subs sid u =
      .ok (subs.map (fun x =>
          if decide (x.stripe_subscription_id = some sid) then applySubUpdate x u else x),
        some (applySubUpdate sub u)) ∧
    SubscriptionModel.findByStripeSubscriptionId
        (subs.map (fun x =>
          if decide (x.stripe_subscription_id = some sid) then applySubUpdate x u else x)) sid =
      some (applySubUpdate sub u) := by
  have hpres : ∀ a : Subscription,
      decide (a.stripe_subscription_id = some sid) = true →
      decide ((applySubUpdate a u).stripe_subscription_id = some sid) = true := by
    intro a ha
    have ha' : a.stripe_subscription_id = some sid := of_decide_eq_true ha
    have hkeep : (applySubUpdate a u).stripe_subscription_id = a.stripe_subscription_id := by
      simp [applySubUpdate, hu, applyJsOpt]
    rw [hkeep, ha']
    simp
  constructor
  · unfold SubscriptionModel.updateByStripeId
    rw [hdb]
    unfold SubscriptionModel.findByStripeSubscriptionId at hfound
    rw [hfound]
  · unfold SubscriptionModel.findByStripeSubscriptionId at hfound ⊢
    rw [find_mapIf _ _ hpres, hfound]
    rfl

/-- The update object of `handleSubscriptionUpdated`, field by field: the
subscription ref is never touched, the allocation is always recomputed, and
the credit counters are present exactly when the reset condition holds. -/
theorem updateFor_fields (ev : StripeSub) (existing : Option Subscription) (priceId : String) :
    (StripeService.updateFor ev existing priceId).stripe_subscription_id = .undef ∧
    (StripeService.updateFor ev existing priceId).credits_total =
      jsOfNullable (getPlanCredits (getPlanFromPriceId priceId)) ∧
    (StripeService.updateFor ev existing priceId).credits_used =
      (if StripeService.resetCondition existing (ev.current_period_start * 1000)
          (getPlanFromPriceId priceId) then some 0 else none) ∧
    (StripeService.updateFor ev existing priceId).credits_reset_at =
      (if StripeService.resetCondition existing (ev.current_period_start * 1000)
          (getPlanFromPriceId priceId) then jsOptTruthyMs ev.current_period_end
       else JsOpt.undef) := by
  by_cases hrc : StripeService.resetCondition existing (ev.current_period_start * 1000)
      (getPlanFromPriceId priceId) = true
  · simp [StripeService.updateFor, hrc]
  · simp [StripeService.updateFor, hrc]

/-- C2 counterexample: delivering `subscription.updated` for `sub_1` with a
period start strictly before the stored one (1000 ms, stored 2000 ms, so the
period start did not advance) and the same PRO plan nevertheless resets
`credits_used` from 7 to 0: the code tests for a different period start, not
an advanced one. -/
theorem C2_counterexample_period_regression :
    proRow.credits_used = 7 ∧
    proRow.plan_name = some (getPlanFromPriceId "price_pro_monthly") ∧
    proRow.current_period_start = some 2000 ∧
    evUpdEarlier.current_period_start * 1000 < 2000 ∧
    (SubscriptionModel.findByStripeSubscriptionId
        (StripeService.handleSubscriptionUpdated envBase evUpdEarlier [proRow]).1
        "sub_1").map Subscription.credits_used = some 0 := by
  decide

/-- C2 (amended): for a `subscription.updated` event applied to a stored
record, `credits_total` is always recomputed from the plan, and
`credits_used` is reset to 0 (with `credits_reset_at` set to the incoming
period end) exactly when the stored period start exists and differs from the
incoming one - not only when it advanced - or the plan name differs;
otherwise `credits_used` and `credits_reset_at` carry over unchanged. -/
theorem C2_update_credit_reset_iff_changed (env : Env) (ev : StripeSub)
    (subs : List Subscription) (sub : Subscription) (item : StripeSubItem)
    (rest : List StripeSubItem) (priceId : String)
    (hdb : env.dbUpdateErr = none)
    (hitems : ev.items = item :: rest)
    (hprice : item.price = some priceId)
    (hfound : SubscriptionModel.findByStripeSubscriptionId subs ev.id = some sub) :
    ∃ r, SubscriptionModel.findByStripeSubscriptionId
          (StripeService.handleSubscriptionUpdated env ev subs).1 ev.id = some r ∧
      r.credits_total = getPlanCredits (getPlanFromPriceId priceId) ∧
      (((∃ p, sub.current_period_start = some p ∧ p ≠ ev.current_period_start * 1000) ∨
            sub.plan_name ≠ some (getPlanFromPriceId priceId)) →
          r.credits_used = 0 ∧
          (ev.current_period_end ≠ 0 →
            r.credits_reset_at = some (ev.current_period_end * 1000))) ∧
      (¬ ((∃ p, sub.current_period_start = some p ∧ p ≠ ev.current_period_start * 1000) ∨
            sub.plan_name ≠ some (getPlanFromPriceId priceId)) →
          r.credits_used = sub.credits_used ∧ r.credits_reset_at = sub.credits_reset_at) := by
  obtain ⟨hu, hct, hcu, hcr⟩ := updateFor_fields ev (some sub) priceId
  obtain ⟨h1, h2⟩ := updateByStripeId_found env subs ev.id
    (StripeService.updateFor ev (some sub) priceId) sub hdb hfound hu
  unfold StripeService.handleSubscriptionUpdated
  rw [hitems]
  simp only [List.head?_cons, hprice, hfound]
  rw [h1]
  refine ⟨applySubUpdate sub (StripeService.updateFor ev (some sub) priceId), h2, ?_, ?_, ?_⟩
  · simp [applySubUpdate, hct, applyJsOpt_jsOfNullable]
  · intro hyes
    have hrc := (resetCondition_some sub (ev.current_period_start * 1000)
      (getPlanFromPriceId priceId)).mpr hyes
    constructor
    · simp [applySubUpdate, hcu, hrc, applyOptVal]
    · intro hend
      simp [applySubUpdate, hcr, hrc, jsOptTruthyMs, hend, applyJsOpt]
  · intro hn
    have hrc : StripeService.resetCondition (some sub) (ev.current_period_start * 1000)
        (getPlanFromPriceId priceId) = false := by
      cases hb : StripeService.resetCondition (some sub) (ev.current_period_start * 1000)
          (getPlanFromPriceId priceId)
      · rfl
      · exact absurd ((resetCondition_some sub _ _).mp hb) hn
    constructor
    · simp [applySubUpdate, hcu, hrc, applyOptVal]
    · simp [applySubUpdate, hcr, hrc, applyJsOpt]

/-- Witness for C2 at the concrete regression event: the updated row exists
and its credits were reset. -/
theorem C2_update_credit_reset_iff_changed_witness :
    ∃ r, SubscriptionModel.findByStripeSubscriptionId
        (StripeService.handleSubscriptionUpdated envBase evUpdEarlier [proRow]).1
        evUpdEarlier.id = some r ∧ r.credits_used = 0 := by
  obtain ⟨r, hr, _hct, hreset, _hcarry⟩ :=
    C2_update_credit_reset_iff_changed envBase evUpdEarlier [proRow] proRow
      { id := some "si_1", price := some "price_pro_monthly" } []
      "price_pro_monthly" rfl rfl rfl (by decide)
  exact ⟨r, hr, (hreset (Or.inl ⟨2000, rfl, by decide⟩)).1⟩

/-- The first component of the sync result is the first component of its
body: the catch only discards the error. -/
theorem sync_fst (env : Env) (customerId userId : String) (subs : List Subscription) :
    (StripeService.syncSubscriptionFromStripe env customerId userId subs).1 =
      (StripeService.syncBody env customerId userId subs).1 := by
  unfold StripeService.syncSubscriptionFromStripe
  rcases StripeService.syncBody env customerId userId subs with ⟨s, r⟩
  cases r <;> rfl

/-- When every subscription-table write fails, the sync body leaves the rows
untouched (the failure happens before or instead of the single write). -/
theorem syncBody_dbfail_fst (env : Env) (customerId userId : String)
    (subs : List Subscription) (m : String) (hm : env.dbUpdateErr = some m) :
    (StripeService.syncBody env customerId userId subs).1 = subs := by
  unfold StripeService.syncBody
  cases hls : env.subscriptionsList customerId with
  | error e => rfl
  | ok lst =>
    dsimp only
    cases hfind : lst.find? (fun s =>
        decide (s.status = "active") || decide (s.status = "past_due")
          || decide (s.status = "trialing")) with
    | some act =>
      simp only [SubscriptionModel.update, hm]
    | none =>
      dsimp only
      cases hhead : lst.head? with
      | none => rfl
      | some latest =>
        dsimp only
        by_cases hc : latest.status = "canceled"
        · simp only [hc, if_true, SubscriptionModel.update, hm]
        · simp only [hc, if_false]

/-- C10: the sync-from-provider repair never propagates an exception: it
always returns normally, and when the provider listing fails, or every
subscription-table write fails, the stored rows are left exactly as they
were; callers can detect the failure only by re-reading the rows. -/
theorem C10_sync_never_throws (env : Env) (customerId userId : String)
    (subs : List Subscription) :
    (StripeService.syncSubscriptionFromStripe env customerId userId subs).2 = .ok () ∧
    (∀ e, env.subscriptionsList customerId = .error e →
      (StripeService.syncSubscriptionFromStripe env customerId userId subs).1 = subs) ∧
    (∀ m, env.dbUpdateErr = some m →
      (StripeService.syncSubscriptionFromStripe env customerId userId subs).1 = subs) := by
  refine ⟨sync_returns_ok env customerId userId subs, ?_, ?_⟩
  · intro e he
    rw [sync_fst]
    unfold StripeService.syncBody
    rw [he]
  · intro m hm
    rw [sync_fst]
    exact syncBody_dbfail_fst env customerId userId subs m hm

/-- Witness for C10 at an environment whose provider listing is rate limited
and whose database writes all fail. -/
theorem C10_sync_never_throws_witness :
    (StripeService.syncSubscriptionFromStripe envBroken "cus_1" "u1" [rowNoRef]).2 = .ok () ∧
    (StripeService.syncSubscriptionFromStripe envBroken "cus_1" "u1" [rowNoRef]).1 =
      [rowNoRef] :=
  ⟨(C10_sync_never_throws envBroken "cus_1" "u1" [rowNoRef]).1,
   (C10_sync_never_throws envBroken "cus_1" "u1" [rowNoRef]).2.1
     (.apiError "rate limited") rfl⟩

/-- C6 (amended): of the user actions that need a subscription ref, switch
plan, cancel and reactivate first run the lazy sync repair when the stored
row lacks the ref and, when sync still produces no ref, fail with the
descriptive contact-support error; cancel-immediately is the exception: it
does not attempt sync and fails at once with `No Stripe subscription ID
found`. -/
theorem C6_missing_ref_actions (env : Env) (userId newPriceId : String)
    (subs : List Subscription) (sub : Subscription)
    (hfind : SubscriptionModel.findByUserId subs userId = some sub)
    (href : sub.stripe_subscription_id = none)
    (hsync : ∀ r, SubscriptionModel.findByUserId
        (StripeService.syncSubscriptionFromStripe env sub.stripe_customer_id userId subs).1
        userId = some r → r.stripe_subscription_id = none) :
    (StripeService.switchPlan env userId newPriceId subs).2 =
      .error (.custom 404 (StripeService.syncFailedMsg sub.stripe_customer_id)) ∧
    (StripeService.cancelSubscription env userId subs).2 =
      .error (.custom 404 (StripeService.syncFailedMsg sub.stripe_customer_id)) ∧
    (StripeService.reactivateSubscription env userId subs).2 =
      .error (.custom 404 (StripeService.syncFailedMsg sub.stripe_customer_id)) ∧
    StripeService.cancelSubscriptionImmediately env userId subs =
      (subs, .error (.custom 400 "No Stripe subscription ID found")) := by
  have hok := sync_returns_ok env sub.stripe_customer_id userId subs
  rcases hs : StripeService.syncSubscriptionFromStripe env sub.stripe_customer_id userId subs
    with ⟨subs1, r⟩
  rw [hs] at hok
  dsimp only at hok
  subst hok
  rw [hs] at hsync
  dsimp only at hsync
  refine ⟨?_, ?_, ?_, ?_⟩
  · unfold StripeService.switchPlan
    rw [hfind]
    dsimp only
    rw [href, hs]
    dsimp only
    cases hf2 : SubscriptionModel.findByUserId subs1 userId with
    | none => rfl
    | some r2 =>
      dsimp only
      rw [hsync r2 hf2]
  · unfold StripeService.cancelSubscription
    rw [hfind]
    dsimp only
    rw [href, hs]
    dsimp only
    cases hf2 : SubscriptionModel.findByUserId subs1 userId with
    | none => rfl
    | some r2 =>
      dsimp only
      rw [hsync r2 hf2]
  · unfold StripeService.reactivateSubscription
    rw [hfind]
    dsimp only
    rw [href, hs]
    dsimp only
    cases hf2 : SubscriptionModel.findByUserId subs1 userId with
    | none => rfl
    | some r2 =>
      dsimp only
      rw [hsync r2 hf2]
  · unfold StripeService.cancelSubscriptionImmediately
    rw [hfind]
    dsimp only
    rw [href]

/-- Witness for C6: with no provider subscriptions at all, each of the three
syncing actions fails with the contact-support error and cancel-immediately
fails with its own message. -/
theorem C6_missing_ref_actions_witness :
    (StripeService.switchPlan envBase "u1" "price_startup_monthly" [rowNoRef]).2 =
      .error (.custom 404 (StripeService.syncFailedMsg "cus_1")) ∧
    StripeService.cancelSubscriptionImmediately envBase "u1" [rowNoRef] =
      ([rowNoRef], .error (.custom 400 "No Stripe subscription ID found")) := by
  have h := C6_missing_ref_actions envBase "u1" "price_startup_monthly" [rowNoRef] rowNoRef
    (by decide) rfl ?hsync
  case hsync =>
    intro r hr
    have hrow : rowNoRef = r := by
      have hval : SubscriptionModel.findByUserId
          (StripeService.syncSubscriptionFromStripe envBase
            rowNoRef.stripe_customer_id "u1" [rowNoRef]).1 "u1" = some rowNoRef := by decide
      rw [hval] at hr
      injection hr
    rw [← hrow]
    rfl
  exact ⟨h.1, h.2.2.2⟩

/-- C6 counterexample: a user whose row lacks the subscription ref while the
provider has an active subscription (so the sync repair would succeed and
would change the row): cancel-immediately nevertheless fails at once with
`No Stripe subscription ID found` and leaves the row untouched, proving it
never ran the sync repair the claim requires. -/
theorem C6_counterexample_cancel_immediately_skips_sync :
    StripeService.cancelSubscriptionImmediately envActive "u1" [rowNoRef] =
      ([rowNoRef], .error (.custom 400 "No Stripe subscription ID found")) ∧
    (StripeService.syncSubscriptionFromStripe envActive "cus_1" "u1" [rowNoRef]).1 ≠
      [rowNoRef] := by
  refine ⟨rfl, by decide⟩

/-- C7 (amended): when the stored row already carries its subscription ref
(so no lazy sync repair runs), a user action (switch plan, cancel,
reactivate) that fails leaves the stored rows exactly as they were; when the
ref was missing, the sync repair executed before the precondition check may
already have rewritten the row from provider state even though the action
then fails (see the counterexample). -/
theorem C7_precondition_failure_no_mutation (env : Env) (userId newPriceId sid : String)
    (subs : List Subscription) (sub : Subscription) (e : SvcErr)
    (hfind : SubscriptionModel.findByUserId subs userId = some sub)
    (href : sub.stripe_subscription_id = some sid) :
    ((StripeService.switchPlan env userId newPriceId subs).2 = .error e →
      (StripeService.switchPlan env userId newPriceId subs).1 = subs) ∧
    ((StripeService.cancelSubscription env userId subs).2 = .error e →
      (StripeService.cancelSubscription env userId subs).1 = subs) ∧
    ((StripeService.reactivateSubscription env userId subs).2 = .error e →
      (StripeService.reactivateSubscription env userId subs).1 = subs) := by
  refine ⟨?_, ?_, ?_⟩
  · unfold StripeService.switchPlan
    rw [hfind]
    dsimp only
    rw [href]
    dsimp only
    repeat' split
    all_goals first
      | exact fun _ => rfl
      | exact fun h => by simp at h
  · unfold StripeService.cancelSubscription
    rw [hfind]
    dsimp only
    rw [href]
    dsimp only
    repeat' split
    all_goals first
      | exact fun _ => rfl
      | exact fun h => by simp at h
  · unfold StripeService.reactivateSubscription
    rw [hfind]
    dsimp only
    rw [href]
    dsimp only
    repeat' split
    all_goals first
      | exact fun _ => rfl
      | exact fun h => by simp at h

/-- Witness for C7: with the linked `sub_1` row and a provider on which the
subscription no longer exists, switch plan fails and the rows are
unchanged. -/
theorem C7_precondition_failure_no_mutation_witness :
    (StripeService.switchPlan envBase "u1" "price_startup_monthly" [proRow]).1 = [proRow] :=
  (C7_precondition_failure_no_mutation envBase "u1" "price_startup_monthly" "sub_1"
      [proRow] proRow
      (.custom 404 "Subscription not found in Stripe. It may have been canceled or deleted.")
      (by decide) rfl).1 rfl

/-- C7 counterexample: a row lacking its subscription ref, with a provider
that reports one canceled subscription: switch plan runs the lazy sync
repair, which rewrites the row (ref set to `sub_c`, status flipped to
CANCELED), and then rejects the action on the canceled-subscription
precondition - so a failed action does mutate the stored record. -/
theorem C7_counterexample_sync_mutates_before_failure :
    (StripeService.switchPlan envCanceled "u1" "price_startup_monthly" [rowNoRef]).2 =
      .error (.custom 400
        "Cannot switch plans on a canceled subscription. Please create a new subscription instead.") ∧
    (StripeService.switchPlan envCanceled "u1" "price_startup_monthly" [rowNoRef]).1 ≠
      [rowNoRef] ∧
    (SubscriptionModel.findByUserId
        (StripeService.switchPlan envCanceled "u1" "price_startup_monthly" [rowNoRef]).1
        "u1").map Subscription.status = some SubStatus.CANCELED ∧
    (SubscriptionModel.findByUserId
        (StripeService.switchPlan envCanceled "u1" "price_startup_monthly" [rowNoRef]).1
        "u1").map Subscription.stripe_subscription_id = some (some "sub_c") := by
  refine ⟨rfl, by decide, by decide, by decide⟩

end Billing
